import Mathlib

/-!
Shallow embedding of `src/mqtt_subscriber_app/subscriber_main.py`: an MQTT
subscriber that filters messages by a fixed topic prefix, extracts a device
identifier from the topic suffix, decodes the payload as UTF-8 text, and
inserts one row per accepted message into a MySQL table through a fixed-size
connection pool.

Python semantics is modelled explicitly:
- strings are Lean `String`; Python indexing, `startswith`, truthiness and the
  `in` operator are expressed on the code-point list `String.data` (Python
  strings are sequences of code points, so this is exact);
- the database client is an oracle `DBBehavior` saying at which call inside
  the `try` block of `insert_data` an exception is raised (if any), the text
  of that exception, and what `conn.is_connected()` reports in the `finally`
  block;
- state is a `DBState`: the committed rows plus the number of pool
  connections currently checked out (acquired and not yet returned).
-/

namespace SubscriberMain

/-- Log severity levels of the Python logging module, as used by this file. -/
inductive LogLevel where
  | debug
  | info
  | warning
  | error
deriving DecidableEq, Repr

/-- One log record: severity and message text. -/
structure LogEntry where
  level : LogLevel
  message : String
deriving DecidableEq, Repr

/-- One committed row of the mqtt_data_log table. The received_at column is
assigned by the database server (NOW()) and carries no client data, so it is
not modelled as a field. -/
structure Row where
  device_id : String
  value_payload : String
  mqtt_topic : String
deriving DecidableEq, Repr

/-- Database-visible state: the committed rows, and how many pool connections
are currently checked out of the pool (acquired and not yet returned). -/
structure DBState where
  rows : List Row
  checkedOut : Nat
deriving DecidableEq, Repr

/-- Where, if anywhere, the database client raises during the try block of
insert_data (source lines 55-67). Each of the four calls in the try block can
raise; the except clause catches any Exception. -/
inductive DBFail where
  | noFail
  | atGetConnection
  | atCursor
  | atExecute
  | atCommit
deriving DecidableEq, Repr

/-- Environment-determined behaviour of the database client during one
insert_data call: where it raises, the str(e) text of the exception, and the
value conn.is_connected() reports in the finally block. -/
structure DBBehavior where
  fail : DBFail
  errMsg : String
  isConnected : Bool
deriving DecidableEq, Repr

/-- Fixed constant TARGET_DB_TABLE (source line 26). -/
def TARGET_DB_TABLE : String := "mqtt_data_log"

/-- Fixed constant TOPIC_PREFIX (source line 27). -/
def TOPIC_PREFIX : String := "roverCommsLog/"

/-- Default of the MQTT_TOPIC environment variable (source line 18). -/
def MQTT_TOPIC_DEFAULT : String := "roverCommsLog/#"

/-- Python str.startswith: code-point-wise prefix test. -/
def py_startswith (s pre : String) : Bool :=
  pre.data.isPrefixOf s.data

/-- Python s[n:]: slice from code-point index n to the end. -/
def py_sliceFrom (s : String) (n : Nat) : String :=
  ⟨s.data.drop n⟩

/-- Python truthiness of a string: `not s` is true exactly when s is empty. -/
def py_isEmptyStr (s : String) : Bool :=
  s.data.isEmpty

/-- Containment of pat as a contiguous sublist of cs: left-to-right scan for
a position where pat is a prefix of the remaining suffix. -/
def listContainsSub (pat : List Char) : List Char → Bool
  | [] => pat.isEmpty
  | c :: rest => pat.isPrefixOf (c :: rest) || listContainsSub pat rest

/-- Python substring containment: the `in` operator on str. -/
def py_contains (s pat : String) : Bool :=
  listContainsSub pat.data s.data

/-- The error log record produced by the except clause of insert_data
(source lines 69-77): the error text is classified as missing table or
missing columns when it contains the MySQL markers, and logged generically
otherwise. -/
def insertErrorLog (errMsg : String) : LogEntry :=
  if py_contains errMsg ("\x27" ++ TARGET_DB_TABLE ++ "\x27 doesn\x27t exist")
      || py_contains errMsg "Unknown column" then
    { level := LogLevel.error
      message := "Database error: Table \x27" ++ TARGET_DB_TABLE ++
        "\x27 or its required columns (device_id, value_payload, mqtt_topic) are missing." }
  else
    { level := LogLevel.error
      message := "Database insertion error: " ++ errMsg }

/-- Outcome of one insert_data call: resulting state, the log records it
emitted, and whether insert_data itself raised (propagating to its caller). -/
structure InsertResult where
  state : DBState
  log : List LogEntry
  raised : Bool
deriving DecidableEq, Repr

/-- insert_data(device_id, value, full_topic), source lines 52-82.

Control flow of the Python function, by failure point:
- at DB_POOL.get_connection(): conn stays None, the except clause skips the
  rollback and logs, the finally guard `if conn and conn.is_connected()` is
  false; returns normally, nothing acquired.
- at conn.cursor(): the connection was checked out but the local variable
  cursor was never assigned. The except clause rolls back and logs; then, in
  the finally block, if is_connected() is true the statement cursor.close()
  raises an unbound-local error before conn.close() can run, so the
  connection is not returned and insert_data raises; if is_connected() is
  false the guard skips both close() calls, so the connection is again not
  returned, but insert_data returns normally.
- at cursor.execute or conn.commit: the except clause rolls back (so no row
  is committed) and logs; the finally block returns the connection exactly
  when is_connected() is true.
- no failure: the row is committed and the debug record logged; the finally
  block returns the connection exactly when is_connected() is true. -/
def insert_data (device_id value full_topic : String)
    (beh : DBBehavior) (s : DBState) : InsertResult :=
  match beh.fail with
  | DBFail.atGetConnection =>
      { state := s
        log := [insertErrorLog beh.errMsg]
        raised := false }
  | DBFail.atCursor =>
      { state := { s with checkedOut := s.checkedOut + 1 }
        log := [insertErrorLog beh.errMsg]
        raised := beh.isConnected }
  | DBFail.atExecute =>
      { state := { s with checkedOut :=
            if beh.isConnected then s.checkedOut else s.checkedOut + 1 }
        log := [insertErrorLog beh.errMsg]
        raised := false }
  | DBFail.atCommit =>
      { state := { s with checkedOut :=
            if beh.isConnected then s.checkedOut else s.checkedOut + 1 }
        log := [insertErrorLog beh.errMsg]
        raised := false }
  | DBFail.noFail =>
      let newRow : Row :=
        { device_id := device_id, value_payload := value, mqtt_topic := full_topic }
      { state :=
          { rows := s.rows ++ [newRow]
            checkedOut := if beh.isConnected then s.checkedOut else s.checkedOut + 1 }
        log := [{ level := LogLevel.debug
                  message := "Inserted: ID=" ++ device_id ++ ", Value=" ++ value ++
                    " from topic " ++ full_topic }]
        raised := false }

/-- Result of msg.payload.decode on utf-8: either the decoded text, or a
UnicodeDecodeError carrying its message. -/
inductive PayloadDecode where
  | ok (text : String)
  | decodeError (msg : String)
deriving DecidableEq, Repr

/-- Outcome of one on_message call: resulting state, emitted log records, the
argument triple passed to insert_data when it was called, and whether
on_message raised past its boundary into the session loop. -/
structure MessageResult where
  state : DBState
  log : List LogEntry
  insertCall : Option (String × String × String)
  raised : Bool
deriving DecidableEq, Repr

/-- on_message(client, userdata, msg), source lines 94-119.

mqttTopicCfg is the module global MQTT_TOPIC (the configurable subscription
filter); it is passed as an argument to make visible exactly which globals
the handler consults. The body never reads it, mirroring the source, which
filters and slices with the fixed literal TOPIC_PREFIX only.

A UnicodeDecodeError from payload.decode, and the unbound-local error that
insert_data can raise from its finally block, are both caught by the outer
except clause (line 118), which logs at error level and returns. -/
def on_message (mqttTopicCfg : String) (topic : String) (payload : PayloadDecode)
    (beh : DBBehavior) (s : DBState) : MessageResult :=
  if !(py_startswith topic TOPIC_PREFIX) then
    { state := s
      log := [{ level := LogLevel.debug
                message := "Skipping non-matching topic: " ++ topic }]
      insertCall := none
      raised := false }
  else
    let device_id := py_sliceFrom topic TOPIC_PREFIX.length
    match payload with
    | PayloadDecode.decodeError emsg =>
        { state := s
          log := [{ level := LogLevel.error
                    message := "Error processing message on topic " ++ topic ++ ": " ++ emsg }]
          insertCall := none
          raised := false }
    | PayloadDecode.ok value_payload =>
        if py_isEmptyStr device_id || py_isEmptyStr value_payload then
          { state := s
            log := [{ level := LogLevel.warning
                      message := "Skipping message with empty device ID or payload on topic " ++ topic }]
            insertCall := none
            raised := false }
        else
          let r := insert_data device_id value_payload topic beh s
          { state := r.state
            log := r.log ++
              (if r.raised then
                [{ level := LogLevel.error
                   message := "Error processing message on topic " ++ topic ++
                     ": cannot access local variable \x27cursor\x27" }]
               else [])
            insertCall := some (device_id, value_payload, topic)
            raised := false }

/-- on_connect(client, userdata, flags, rc, properties), source lines 85-92:
on result code 0 it subscribes to the configured MQTT_TOPIC (returned as
some subscription), otherwise it only logs the failure. -/
def on_connect (mqttTopicCfg : String) (rc : Nat) : Option String :=
  if rc = 0 then some mqttTopicCfg else none

/-- The broker session loop (client.loop_forever): delivers messages one at a
time, in order, to on_message. An exception escaping a callback would
terminate the loop, so the loop stops at the first message whose handling
raised. Returns the final state, the concatenated log, and how many messages
were handled. -/
def session_loop (mqttTopicCfg : String)
    (msgs : List (String × PayloadDecode × DBBehavior)) (s : DBState) :
    DBState × List LogEntry × Nat :=
  match msgs with
  | [] => (s, [], 0)
  | (t, p, b) :: rest =>
      let r := on_message mqttTopicCfg t p b s
      if r.raised then (r.state, r.log, 1)
      else
        let next := session_loop mqttTopicCfg rest r.state
        (next.1, r.log ++ next.2.1, next.2.2 + 1)

/-- Python whitespace stripped by str.strip with no argument (ASCII subset;
non-ASCII whitespace accepted by CPython is not modelled). -/
def py_isSpace (c : Char) : Bool :=
  c == ' ' || c == '\t' || c == '\n' || c == '\r' || c == '\x0b' || c == '\x0c'

/-- Leading and trailing whitespace removal, as int() applies to its string
argument. -/
def py_strip (cs : List Char) : List Char :=
  ((cs.dropWhile py_isSpace).reverse.dropWhile py_isSpace).reverse

/-- Continuation of the digit part of a Python int literal: a sequence of
digits in which single underscores may appear between digits. -/
def pyIntDigitsRest : List Char → Bool
  | [] => true
  | '_' :: c :: rest => c.isDigit && pyIntDigitsRest rest
  | '_' :: [] => false
  | c :: rest => c.isDigit && pyIntDigitsRest rest

/-- The digit part of a Python int literal after the optional sign: at least
one digit, with single underscores allowed only between digits. -/
def pyIntBody (cs : List Char) : Bool :=
  match cs with
  | [] => false
  | c :: rest => c.isDigit && pyIntDigitsRest rest

/-- Numeric value of a digit-and-underscore sequence, base 10. -/
def pyIntVal (cs : List Char) : Nat :=
  cs.foldl (fun acc c => if c == '_' then acc else acc * 10 + (c.toNat - 48)) 0

/-- Python int(s) on an ASCII argument: strip whitespace, optional single
sign, then digits with single underscores between digits. Returns none
exactly when int() raises ValueError. (Non-ASCII digits accepted by CPython
are not modelled.) -/
def py_int (s : String) : Option Int :=
  match py_strip s.data with
  | '+' :: rest => if pyIntBody rest then some (Int.ofNat (pyIntVal rest)) else none
  | '-' :: rest => if pyIntBody rest then some (-(Int.ofNat (pyIntVal rest))) else none
  | rest => if pyIntBody rest then some (Int.ofNat (pyIntVal rest)) else none

/-- Loading of the module global MQTT_PORT (source line 17):
int(os.getenv("MQTT_PORT", 1883)). With the variable unset the default int
1883 is used unchanged; with the variable set, its string value goes through
int(), and a ValueError (none) is an uncaught exception at module level. -/
def load_mqtt_port (env : Option String) : Option Int :=
  match env with
  | none => some 1883
  | some v => py_int v

/-- setup_db_pool(), source lines 33-50: logs an info line, attempts to
create the pool, and on any exception logs the error and calls exit(1).
Returns the emitted log and the exit code when it exited. -/
def setup_db_pool (dbUser dbHost dbName : String) (poolFails : Bool)
    (poolErrMsg : String) : List LogEntry × Option Nat :=
  let intro : LogEntry :=
    { level := LogLevel.info
      message := "Setting up DB connection pool for " ++ dbUser ++ "@" ++ dbHost ++
        "/" ++ dbName ++ "..." }
  if poolFails then
    ([intro,
      { level := LogLevel.error
        message := "Error setting up DB connection pool: " ++ poolErrMsg }],
     some 1)
  else
    ([intro,
      { level := LogLevel.info, message := "Database connection pool established." }],
     none)

/-- Trace of process startup up to the point the broker session starts. -/
structure StartupTrace where
  log : List LogEntry
  mqttPort : Option Int
  poolCreationAttempted : Bool
  sessionConstructed : Bool
  exitCode : Option Nat
deriving DecidableEq, Repr

/-- Process startup: module import runs the configuration globals first
(line 17 parses MQTT_PORT; an uncaught ValueError there terminates CPython
with exit status 1 before anything under the main guard runs), then the main
block logs, calls setup_db_pool (which exits with status 1 on failure, before
the MQTT client exists), and only then constructs the client and starts the
session. Log records emitted after the session starts are not part of this
trace. -/
def startup (mqttPortEnv : Option String) (dbUser dbHost dbName : String)
    (poolFails : Bool) (poolErrMsg : String) : StartupTrace :=
  match load_mqtt_port mqttPortEnv with
  | none =>
      { log := []
        mqttPort := none
        poolCreationAttempted := false
        sessionConstructed := false
        exitCode := some 1 }
  | some port =>
      let startedLog : LogEntry :=
        { level := LogLevel.info, message := "MQTT Subscriber service started." }
      let pool := setup_db_pool dbUser dbHost dbName poolFails poolErrMsg
      match pool.2 with
      | some c =>
          { log := startedLog :: pool.1
            mqttPort := some port
            poolCreationAttempted := true
            sessionConstructed := false
            exitCode := some c }
      | none =>
          { log := startedLog :: pool.1
            mqttPort := some port
            poolCreationAttempted := true
            sessionConstructed := true
            exitCode := none }

/-! ## Helper lemmas -/

/-- Every branch of on_message returns with raised = false: the outer except
clause catches everything, including decode errors and anything insert_data
raises. -/
theorem on_message_raised_false (cfg topic : String) (payload : PayloadDecode)
    (beh : DBBehavior) (s : DBState) :
    (on_message cfg topic payload beh s).raised = false := by
  unfold on_message
  split
  · rfl
  · cases payload with
    | decodeError m => rfl
    | ok v =>
      dsimp only
      split
      · rfl
      · rfl

/-- Slicing the topic at the prefix length recovers exactly the appended
suffix. -/
theorem slice_of_append (X : String) :
    py_sliceFrom (TOPIC_PREFIX ++ X) TOPIC_PREFIX.length = X := by
  show String.mk (((TOPIC_PREFIX ++ X).data).drop TOPIC_PREFIX.length) = X
  rw [String.data_append]
  rw [List.drop_left' (by rfl)]

/-- A topic of the form prefix ++ X passes the startswith test. -/
theorem startswith_of_append (X : String) :
    py_startswith (TOPIC_PREFIX ++ X) TOPIC_PREFIX = true := by
  show TOPIC_PREFIX.data.isPrefixOf (TOPIC_PREFIX ++ X).data = true
  rw [String.data_append]
  exact List.isPrefixOf_iff_prefix.mpr (List.prefix_append _ _)

/-- Python truthiness bridge: a string is falsy exactly when it equals "". -/
theorem py_isEmptyStr_eq_false (X : String) (h : X ≠ "") :
    py_isEmptyStr X = false := by
  unfold py_isEmptyStr
  cases hX : X.data with
  | nil =>
    exact absurd (by cases X with | mk d => cases hX; rfl) h
  | cons a l => rfl

/-! ## Claims -/

/-- C1: for every delivered message whose topic does not start with the fixed
prefix roverCommsLog/, the handler attempts no insert and causes no state
change: it returns after a debug-level log, leaving the pool and database
untouched. -/
theorem c1_nonmatching_topic_no_effect (cfg topic : String) (payload : PayloadDecode)
    (beh : DBBehavior) (s : DBState)
    (h : py_startswith topic TOPIC_PREFIX = false) :
    on_message cfg topic payload beh s =
      { state := s
        log := [{ level := LogLevel.debug
                  message := "Skipping non-matching topic: " ++ topic }]
        insertCall := none
        raised := false } := by
  simp [on_message, h]

/-- Witness for C1 at the end-to-end example of the spec: topic otherTopic/x
with payload hello. -/
theorem c1_witness :
    py_startswith "otherTopic/x" TOPIC_PREFIX = false ∧
    on_message MQTT_TOPIC_DEFAULT "otherTopic/x" (PayloadDecode.ok "hello")
      { fail := DBFail.noFail, errMsg := "", isConnected := true }
      { rows := [], checkedOut := 0 } =
      { state := { rows := [], checkedOut := 0 }
        log := [{ level := LogLevel.debug
                  message := "Skipping non-matching topic: " ++ "otherTopic/x" }]
        insertCall := none
        raised := false } :=
  ⟨by decide, c1_nonmatching_topic_no_effect _ _ _ _ _ (by decide)⟩

/-- C2: for every topic equal to the prefix roverCommsLog/ followed by a
non-empty string X, the device identifier the handler extracts is exactly X,
and X is what it passes to insert_data (whenever a non-empty payload lets the
call happen). -/
theorem c2_device_id_is_exact_suffix (cfg X p : String) (beh : DBBehavior) (s : DBState)
    (hX : X ≠ "") (hp : p ≠ "") :
    py_sliceFrom (TOPIC_PREFIX ++ X) TOPIC_PREFIX.length = X ∧
    (on_message cfg (TOPIC_PREFIX ++ X) (PayloadDecode.ok p) beh s).insertCall =
      some (X, p, TOPIC_PREFIX ++ X) := by
  refine ⟨slice_of_append X, ?_⟩
  simp [on_message, startswith_of_append, slice_of_append,
    py_isEmptyStr_eq_false X hX, py_isEmptyStr_eq_false p hp]

/-- Witness for C2 at the end-to-end example of the spec: topic
roverCommsLog/rover_A, payload 24.5. -/
theorem c2_witness :
    ("rover_A" : String) ≠ "" ∧ ("24.5" : String) ≠ "" ∧
    (py_sliceFrom (TOPIC_PREFIX ++ "rover_A") TOPIC_PREFIX.length = "rover_A" ∧
      (on_message MQTT_TOPIC_DEFAULT (TOPIC_PREFIX ++ "rover_A") (PayloadDecode.ok "24.5")
        { fail := DBFail.noFail, errMsg := "", isConnected := true }
        { rows := [], checkedOut := 0 }).insertCall =
        some ("rover_A", "24.5", TOPIC_PREFIX ++ "rover_A")) :=
  ⟨by decide, by decide,
    c2_device_id_is_exact_suffix MQTT_TOPIC_DEFAULT "rover_A" "24.5"
      { fail := DBFail.noFail, errMsg := "", isConnected := true }
      { rows := [], checkedOut := 0 } (by decide) (by decide)⟩

/-- C3: for every message that reaches the insert step with a payload decoding
to a non-empty string p, insert_data is invoked with exactly p as the value —
no trimming, numeric parsing or coercion — and when the database succeeds the
committed row stores exactly p. -/
theorem c3_payload_stored_verbatim (cfg topic p : String) (beh : DBBehavior) (s : DBState)
    (htopic : py_startswith topic TOPIC_PREFIX = true)
    (hdev : py_isEmptyStr (py_sliceFrom topic TOPIC_PREFIX.length) = false)
    (hp : p ≠ "") :
    (on_message cfg topic (PayloadDecode.ok p) beh s).insertCall =
      some (py_sliceFrom topic TOPIC_PREFIX.length, p, topic) ∧
    (beh.fail = DBFail.noFail →
      (on_message cfg topic (PayloadDecode.ok p) beh s).state.rows =
        s.rows ++ [{ device_id := py_sliceFrom topic TOPIC_PREFIX.length
                     value_payload := p
                     mqtt_topic := topic }]) := by
  constructor
  · simp [on_message, htopic, hdev, py_isEmptyStr_eq_false p hp]
  · intro hfail
    simp [on_message, htopic, hdev, py_isEmptyStr_eq_false p hp, insert_data, hfail]

/-- Witness for C3 at the end-to-end example of the spec: topic
roverCommsLog/rover_A with payload 24.5 yields one row holding exactly 24.5. -/
theorem c3_witness :
    py_startswith "roverCommsLog/rover_A" TOPIC_PREFIX = true ∧
    py_isEmptyStr (py_sliceFrom "roverCommsLog/rover_A" TOPIC_PREFIX.length) = false ∧
    ("24.5" : String) ≠ "" ∧
    ((on_message MQTT_TOPIC_DEFAULT "roverCommsLog/rover_A" (PayloadDecode.ok "24.5")
        { fail := DBFail.noFail, errMsg := "", isConnected := true }
        { rows := [], checkedOut := 0 }).insertCall =
      some (py_sliceFrom "roverCommsLog/rover_A" TOPIC_PREFIX.length, "24.5",
        "roverCommsLog/rover_A") ∧
     (DBFail.noFail = DBFail.noFail →
      (on_message MQTT_TOPIC_DEFAULT "roverCommsLog/rover_A" (PayloadDecode.ok "24.5")
        { fail := DBFail.noFail, errMsg := "", isConnected := true }
        { rows := [], checkedOut := 0 }).state.rows =
        [] ++ [{ device_id := py_sliceFrom "roverCommsLog/rover_A" TOPIC_PREFIX.length
                 value_payload := "24.5"
                 mqtt_topic := "roverCommsLog/rover_A" }])) :=
  ⟨by decide, by decide, by decide,
    c3_payload_stored_verbatim MQTT_TOPIC_DEFAULT "roverCommsLog/rover_A" "24.5"
      { fail := DBFail.noFail, errMsg := "", isConnected := true }
      { rows := [], checkedOut := 0 } (by decide) (by decide) (by decide)⟩

/-- C4: for every message with a prefix-matching topic whose extracted device
id is empty (topic equal to the prefix alone) or whose decoded payload is the
empty string, the handler discards the message with a warning-level log,
performs no insert, and leaves the state untouched. -/
theorem c4_empty_field_discarded_with_warning (cfg topic p : String)
    (beh : DBBehavior) (s : DBState)
    (htopic : py_startswith topic TOPIC_PREFIX = true)
    (hempty : (py_isEmptyStr (py_sliceFrom topic TOPIC_PREFIX.length)
        || py_isEmptyStr p) = true) :
    on_message cfg topic (PayloadDecode.ok p) beh s =
      { state := s
        log := [{ level := LogLevel.warning
                  message := "Skipping message with empty device ID or payload on topic " ++ topic }]
        insertCall := none
        raised := false } := by
  simp [on_message, htopic, hempty]

/-- Witness for C4 at the end-to-end example of the spec: topic
roverCommsLog/rover_B with empty payload produces zero rows and a warning. -/
theorem c4_witness :
    py_startswith "roverCommsLog/rover_B" TOPIC_PREFIX = true ∧
    (py_isEmptyStr (py_sliceFrom "roverCommsLog/rover_B" TOPIC_PREFIX.length)
      || py_isEmptyStr "") = true ∧
    on_message MQTT_TOPIC_DEFAULT "roverCommsLog/rover_B" (PayloadDecode.ok "")
      { fail := DBFail.noFail, errMsg := "", isConnected := true }
      { rows := [], checkedOut := 0 } =
      { state := { rows := [], checkedOut := 0 }
        log := [{ level := LogLevel.warning
                  message := "Skipping message with empty device ID or payload on topic " ++
                    "roverCommsLog/rover_B" }]
        insertCall := none
        raised := false } :=
  ⟨by decide, by decide,
    c4_empty_field_discarded_with_warning MQTT_TOPIC_DEFAULT "roverCommsLog/rover_B" ""
      { fail := DBFail.noFail, errMsg := "", isConnected := true }
      { rows := [], checkedOut := 0 } (by decide) (by decide)⟩

/-- The session loop handles every message of its input: since no handler
invocation raises, the loop never stops early. -/
theorem session_loop_count (cfg : String) :
    ∀ (msgs : List (String × PayloadDecode × DBBehavior)) (s : DBState),
      (session_loop cfg msgs s).2.2 = msgs.length := by
  intro msgs
  induction msgs with
  | nil => intro s; rfl
  | cons m rest ih =>
    intro s
    obtain ⟨t, p, b⟩ := m
    simp [session_loop, on_message_raised_false, ih]

/-- C5: no error raised while handling a delivered message — database errors
inside insert_data and payload-decoding errors included — propagates past the
handler boundary, and a failure on one message never prevents processing of
the following messages: the session loop handles its whole input. -/
theorem c5_errors_never_escape_handler :
    (∀ (cfg topic : String) (payload : PayloadDecode) (beh : DBBehavior) (s : DBState),
      (on_message cfg topic payload beh s).raised = false) ∧
    (∀ (cfg : String) (msgs : List (String × PayloadDecode × DBBehavior)) (s : DBState),
      (session_loop cfg msgs s).2.2 = msgs.length) :=
  ⟨on_message_raised_false, fun cfg msgs s => session_loop_count cfg msgs s⟩

/-- C6 counterexample: on the success path with conn.is_connected() reporting
false in the finally block, the guard `if conn and conn.is_connected()` skips
conn.close(), so the acquired connection is not returned to the pool before
insert_data returns: the checked-out count stays at 1 instead of going back
to 0. -/
theorem c6_counterexample :
    (insert_data "rover_A" "24.5" "roverCommsLog/rover_A"
      { fail := DBFail.noFail, errMsg := "", isConnected := false }
      { rows := [], checkedOut := 0 }).state.checkedOut ≠ 0 := by decide

/-- C6 amended: whenever insert_data runs with the cursor successfully created
(the failure point, if any, is at execute or commit) and the connection still
reports connected in the finally block, the acquired connection is released
back to the pool before insert_data returns, on success and on failure alike:
the checked-out count is restored. -/
theorem c6_release_when_cursor_created_and_connected
    (device_id value full_topic : String) (beh : DBBehavior) (s : DBState)
    (hconn : beh.isConnected = true)
    (hcur : beh.fail ≠ DBFail.atCursor) :
    (insert_data device_id value full_topic beh s).state.checkedOut = s.checkedOut := by
  cases hf : beh.fail with
  | noFail => simp [insert_data, hf, hconn]
  | atGetConnection => simp [insert_data, hf]
  | atCursor => exact absurd hf hcur
  | atExecute => simp [insert_data, hf, hconn]
  | atCommit => simp [insert_data, hf, hconn]

/-- Witness for the amended C6: a failing execute on a live connection still
hands the connection back. -/
theorem c6_witness :
    ({ fail := DBFail.atExecute, errMsg := "Unknown column", isConnected := true }
        : DBBehavior).isConnected = true ∧
    ({ fail := DBFail.atExecute, errMsg := "Unknown column", isConnected := true }
        : DBBehavior).fail ≠ DBFail.atCursor ∧
    (insert_data "rover_A" "24.5" "roverCommsLog/rover_A"
      { fail := DBFail.atExecute, errMsg := "Unknown column", isConnected := true }
      { rows := [], checkedOut := 0 }).state.checkedOut =
      ({ rows := [], checkedOut := 0 } : DBState).checkedOut :=
  ⟨by decide, by decide,
    c6_release_when_cursor_created_and_connected "rover_A" "24.5" "roverCommsLog/rover_A"
      { fail := DBFail.atExecute, errMsg := "Unknown column", isConnected := true }
      { rows := [], checkedOut := 0 } (by decide) (by decide)⟩

/-- C7 counterexample: when conn.cursor() raises after the connection was
acquired and the connection still reports connected, the finally block
evaluates cursor.close() with the local variable cursor never assigned; the
resulting unbound-local error escapes insert_data, so insert_data does not
return normally on this failing path. -/
theorem c7_counterexample :
    (insert_data "rover_A" "24.5" "roverCommsLog/rover_A"
      { fail := DBFail.atCursor, errMsg := "MySQL Connection not available"
        isConnected := true }
      { rows := [], checkedOut := 0 }).raised = true := by decide

/-- C7 amended: for every insert_data invocation failing after the connection
was acquired, the transaction is rolled back (no row is committed), the error
is classified as missing-table or missing-column versus generic and logged as
one error record, and the error itself is swallowed with no retry; insert_data
returns normally except on the one path where the failure hit cursor creation
while the connection still reports connected — there the finally-block cleanup
raises an unbound-local error (caught by the message handler). -/
theorem c7_db_failure_rolled_back_logged_swallowed
    (device_id value full_topic : String) (beh : DBBehavior) (s : DBState)
    (h : beh.fail = DBFail.atCursor ∨ beh.fail = DBFail.atExecute ∨
      beh.fail = DBFail.atCommit) :
    (insert_data device_id value full_topic beh s).log = [insertErrorLog beh.errMsg] ∧
    (insert_data device_id value full_topic beh s).state.rows = s.rows ∧
    (insert_data device_id value full_topic beh s).raised =
      (if beh.fail = DBFail.atCursor then beh.isConnected else false) := by
  rcases h with h | h | h <;> simp [insert_data, h]

/-- Witness for the amended C7: a failing execute with a missing-column error
is rolled back, logged through the classifier, and swallowed. -/
theorem c7_witness :
    (DBFail.atExecute = DBFail.atCursor ∨ DBFail.atExecute = DBFail.atExecute ∨
      DBFail.atExecute = DBFail.atCommit) ∧
    ((insert_data "rover_A" "24.5" "roverCommsLog/rover_A"
        { fail := DBFail.atExecute, errMsg := "Unknown column \x27value_payload\x27"
          isConnected := true }
        { rows := [], checkedOut := 0 }).log =
      [insertErrorLog "Unknown column \x27value_payload\x27"] ∧
     (insert_data "rover_A" "24.5" "roverCommsLog/rover_A"
        { fail := DBFail.atExecute, errMsg := "Unknown column \x27value_payload\x27"
          isConnected := true }
        { rows := [], checkedOut := 0 }).state.rows = ([] : List Row) ∧
     (insert_data "rover_A" "24.5" "roverCommsLog/rover_A"
        { fail := DBFail.atExecute, errMsg := "Unknown column \x27value_payload\x27"
          isConnected := true }
        { rows := [], checkedOut := 0 }).raised =
      (if ({ fail := DBFail.atExecute, errMsg := "Unknown column \x27value_payload\x27"
             isConnected := true } : DBBehavior).fail = DBFail.atCursor then
        ({ fail := DBFail.atExecute, errMsg := "Unknown column \x27value_payload\x27"
           isConnected := true } : DBBehavior).isConnected
       else false)) :=
  ⟨by decide,
    c7_db_failure_rolled_back_logged_swallowed "rover_A" "24.5" "roverCommsLog/rover_A"
      { fail := DBFail.atExecute, errMsg := "Unknown column \x27value_payload\x27"
        isConnected := true }
      { rows := [], checkedOut := 0 } (by decide)⟩

/-- C8: when the configuration loaded and pool creation fails, the process
logs the startup and error records, exits with status 1 (non-zero)
immediately, and the broker session is never constructed, so no message
handling occurs in that run. -/
theorem c8_pool_failure_exits_before_session (env : Option String) (p : Int)
    (dbUser dbHost dbName poolErrMsg : String)
    (hload : load_mqtt_port env = some p) :
    startup env dbUser dbHost dbName true poolErrMsg =
      { log := [{ level := LogLevel.info, message := "MQTT Subscriber service started." },
                { level := LogLevel.info
                  message := "Setting up DB connection pool for " ++ dbUser ++ "@" ++
                    dbHost ++ "/" ++ dbName ++ "..." },
                { level := LogLevel.error
                  message := "Error setting up DB connection pool: " ++ poolErrMsg }]
        mqttPort := some p
        poolCreationAttempted := true
        sessionConstructed := false
        exitCode := some 1 } ∧ (1 : Nat) ≠ 0 := by
  refine ⟨?_, by decide⟩
  simp [startup, hload, setup_db_pool]

/-- Witness for C8 with the default configuration values and an access-denied
pool error. -/
theorem c8_witness :
    load_mqtt_port none = some 1883 ∧
    startup none "SITH" "SITH-MySQL" "SITH" true "Access denied" =
      { log := [{ level := LogLevel.info, message := "MQTT Subscriber service started." },
                { level := LogLevel.info
                  message := "Setting up DB connection pool for " ++ "SITH" ++ "@" ++
                    "SITH-MySQL" ++ "/" ++ "SITH" ++ "..." },
                { level := LogLevel.error
                  message := "Error setting up DB connection pool: " ++ "Access denied" }]
        mqttPort := some 1883
        poolCreationAttempted := true
        sessionConstructed := false
        exitCode := some 1 } ∧ (1 : Nat) ≠ 0 :=
  ⟨by decide,
    c8_pool_failure_exits_before_session none 1883 "SITH" "SITH-MySQL" "SITH"
      "Access denied" (by decide)⟩

/-- C9: filtering and device-id extraction use the fixed literal prefix
roverCommsLog/, and the handler never consults the configurable MQTT_TOPIC
subscription filter: for any two values of that configuration the handler
produces identical results on the same delivered message. -/
theorem c9_handler_independent_of_subscription_filter :
    TOPIC_PREFIX = "roverCommsLog/" ∧
    ∀ (cfg1 cfg2 topic : String) (payload : PayloadDecode)
      (beh : DBBehavior) (s : DBState),
      on_message cfg1 topic payload beh s = on_message cfg2 topic payload beh s :=
  ⟨rfl, fun _ _ _ _ _ _ => rfl⟩

/-- C10: when the MQTT_PORT environment variable holds a string that is not a
valid Python int literal, the int() call in the module-level configuration
raises, so the process dies with exit status 1 before the pool is created or
the broker session constructed, whatever the pool would have done. -/
theorem c10_invalid_port_fails_during_config (v : String)
    (dbUser dbHost dbName poolErrMsg : String) (poolFails : Bool)
    (h : py_int v = none) :
    startup (some v) dbUser dbHost dbName poolFails poolErrMsg =
      { log := []
        mqttPort := none
        poolCreationAttempted := false
        sessionConstructed := false
        exitCode := some 1 } := by
  simp [startup, load_mqtt_port, h]

/-- Witness for C10: MQTT_PORT set to a non-numeric string kills startup
before pool creation even when the pool itself would have worked. -/
theorem c10_witness :
    py_int "not_an_int" = none ∧
    startup (some "not_an_int") "SITH" "SITH-MySQL" "SITH" false "" =
      { log := []
        mqttPort := none
        poolCreationAttempted := false
        sessionConstructed := false
        exitCode := some 1 } :=
  ⟨by decide,
    c10_invalid_port_fails_during_config "not_an_int" "SITH" "SITH-MySQL" "SITH" ""
      false (by decide)⟩

end SubscriberMain
